import Mathlib

/-!
Verification development for the dwz-mcp short-URL MCP client.

Shallow embedding of the request-execution and error-normalization pipeline:
`src/utils/errorHandler.js`, `src/services/httpClient.js`,
`src/utils/validation.js` and the service layer (`shortLinkService.js`).

Conventions of the embedding:
* JS promises / thrown errors become `Except`.
* The wall clock reading used for `timestamp` fields is passed explicitly
  as a `now : String` parameter (JS calls `new Date().toISOString()`).
* `Math.random()` becomes an explicit rational draw `r` with `0 ≤ r < 1`.
* The `await delay(ms)` suspension in the retry loop has no effect on the
  returned value or on the number of attempts, so it is not modelled.
-/

/-- The closed set of error code strings from `ErrorCodes` in
`src/utils/errorHandler.js`. -/
inductive ErrorCode where
  | NETWORK_ERROR
  | TIMEOUT_ERROR
  | CONNECTION_ERROR
  | AUTHENTICATION_ERROR
  | AUTHORIZATION_ERROR
  | INVALID_API_KEY
  | VALIDATION_ERROR
  | MISSING_PARAMETER
  | INVALID_PARAMETER
  | RESOURCE_NOT_FOUND
  | RESOURCE_ALREADY_EXISTS
  | OPERATION_NOT_ALLOWED
  | QUOTA_EXCEEDED
  | INTERNAL_SERVER_ERROR
  | SERVICE_UNAVAILABLE
  | RATE_LIMIT_EXCEEDED
  | CONFIGURATION_ERROR
  | MISSING_CONFIG
  | UNKNOWN_ERROR
deriving DecidableEq, Repr, Inhabited

/-- `ERROR_STATUS_MAP` from `src/utils/errorHandler.js`. -/
def ERROR_STATUS_MAP : ErrorCode → Nat
  | .NETWORK_ERROR => 503
  | .TIMEOUT_ERROR => 408
  | .CONNECTION_ERROR => 503
  | .AUTHENTICATION_ERROR => 401
  | .AUTHORIZATION_ERROR => 403
  | .INVALID_API_KEY => 401
  | .VALIDATION_ERROR => 400
  | .MISSING_PARAMETER => 400
  | .INVALID_PARAMETER => 400
  | .RESOURCE_NOT_FOUND => 404
  | .RESOURCE_ALREADY_EXISTS => 409
  | .OPERATION_NOT_ALLOWED => 403
  | .QUOTA_EXCEEDED => 429
  | .INTERNAL_SERVER_ERROR => 500
  | .SERVICE_UNAVAILABLE => 503
  | .RATE_LIMIT_EXCEEDED => 429
  | .CONFIGURATION_ERROR => 500
  | .MISSING_CONFIG => 500
  | .UNKNOWN_ERROR => 500

/-- One per-field validation error entry, `{field, message, value}`, as built
both by `validate` in `src/utils/validation.js` and by
`ErrorAnalyzer.analyzeValidationError`. -/
structure FieldError where
  field : String
  message : String
  value : Option String
deriving DecidableEq, Repr

/-- Structured `details` payloads carried by the error classes of
`src/utils/errorHandler.js`. -/
inductive Details where
  /-- a list of per-field entries (ValidationError) -/
  | fields (l : List FieldError)
  /-- `{ originalError: originalError?.message }` (NetworkError, config errors) -/
  | originalError (msg : Option String)
  /-- `{ resource, id }` (NotFoundError) -/
  | resourceInfo (resource : String) (id : Option Nat)
  /-- `{ originalError: error.message, stack: error.stack }` (unknown errors);
  the stack string is opaque and not modelled beyond its presence -/
  | unknownInfo (origMsg : String)
deriving DecidableEq, Repr

/-- The `CustomError` shape from `src/utils/errorHandler.js`: `name` is the
subclass name, `code` an `ErrorCodes` member, `timestamp` the ISO clock string
taken at construction. -/
structure CustomError where
  name : String
  message : String
  code : ErrorCode
  statusCode : Nat
  details : Option Details
  timestamp : String
deriving DecidableEq, Repr

/-- `new CustomError(message, code, statusCode, details)` at clock `now`. -/
def CustomError.make (message : String) (code : ErrorCode) (statusCode : Nat)
    (details : Option Details) (now : String) : CustomError :=
  ⟨"CustomError", message, code, statusCode, details, now⟩

/-- `new ValidationError(message, details)`. -/
def ValidationError.make (message : String) (details : Option Details)
    (now : String) : CustomError :=
  ⟨"ValidationError", message, .VALIDATION_ERROR, 400, details, now⟩

/-- `new NetworkError(message, originalError)`; `origMsg` is
`originalError?.message`. -/
def NetworkError.make (message : String) (origMsg : Option String)
    (now : String) : CustomError :=
  ⟨"NetworkError", message, .NETWORK_ERROR, 503, some (.originalError origMsg), now⟩

/-- `new AuthenticationError(message)`. -/
def AuthenticationError.make (message : String) (now : String) : CustomError :=
  ⟨"AuthenticationError", message, .AUTHENTICATION_ERROR, 401, none, now⟩

/-- `new NotFoundError(resource, id)`. -/
def NotFoundError.make (resource : String) (id : Option Nat)
    (now : String) : CustomError :=
  ⟨"NotFoundError",
   (match id with
    | some i => resource ++ " (ID: " ++ toString i ++ ") 未找到"
    | none => resource ++ " 未找到"),
   .RESOURCE_NOT_FOUND, 404, some (.resourceInfo resource id), now⟩

/-- `new BusinessError(message, code)`; status code looked up in
`ERROR_STATUS_MAP`. -/
def BusinessError.make (message : String) (code : ErrorCode)
    (now : String) : CustomError :=
  ⟨"BusinessError", message, code, ERROR_STATUS_MAP code, none, now⟩

/-- The part of an axios response an error carries:
`error.response.status` and `error.response.data?.message` /
`error.response.data?.details`. -/
structure HttpResponse where
  status : Nat
  dataMessage : Option String
  dataDetails : Option Details
deriving DecidableEq, Repr

/-- A raw JS `Error` as the HTTP layer sees it: the optional axios
`response`, the optional string `code` (axios transport codes such as
`ECONNABORTED`, or `MISSING_CONFIG`), the `message`, and
`error.config?.params?.id` which `analyzeHttpError` reads on 404.
A plain `new Error(msg)` is the special case with no response and no code. -/
structure RawHttpError where
  response : Option HttpResponse
  code : Option String
  message : String
  configParamsId : Option Nat
deriving DecidableEq, Repr, Inhabited

/-- Occurrence scan over character lists: `pat` occurs in the list at some
offset. -/
def strContainsAux (pat : List Char) : List Char → Bool
  | [] => pat.isEmpty
  | c :: t => pat.isPrefixOf (c :: t) || strContainsAux pat t

/-- `message.includes(pat)`. -/
def strContains (s pat : String) : Bool :=
  strContainsAux pat.data s.data

namespace ErrorAnalyzer

/-- `ErrorAnalyzer.analyzeHttpError` from `src/utils/errorHandler.js`:
transport failures (no response) all become `NetworkError`; response
statuses map through the switch on `status`. -/
def analyzeHttpError (e : RawHttpError) (now : String) : CustomError :=
  match e.response with
  | none =>
    if e.code == some "ECONNABORTED" || strContains e.message "timeout" then
      NetworkError.make "请求超时" (some e.message) now
    else if e.code == some "ENOTFOUND" || e.code == some "ECONNREFUSED" then
      NetworkError.make "无法连接到服务器" (some e.message) now
    else
      NetworkError.make "网络连接失败" (some e.message) now
  | some r =>
    if r.status == 400 then
      ValidationError.make (r.dataMessage.getD "请求参数错误") r.dataDetails now
    else if r.status == 401 then
      AuthenticationError.make (r.dataMessage.getD "未授权访问") now
    else if r.status == 403 then
      BusinessError.make (r.dataMessage.getD "操作被禁止") .AUTHORIZATION_ERROR now
    else if r.status == 404 then
      NotFoundError.make "短网址" e.configParamsId now
    else if r.status == 409 then
      BusinessError.make (r.dataMessage.getD "资源已存在") .RESOURCE_ALREADY_EXISTS now
    else if r.status == 429 then
      BusinessError.make (r.dataMessage.getD "请求频率过高") .RATE_LIMIT_EXCEEDED now
    else if r.status == 500 || r.status == 502 || r.status == 503 || r.status == 504 then
      CustomError.make (r.dataMessage.getD "服务器内部错误") .INTERNAL_SERVER_ERROR r.status none now
    else
      CustomError.make
        (r.dataMessage.getD ("HTTP " ++ toString r.status ++ " 错误"))
        .UNKNOWN_ERROR r.status none now

/-- One Joi error detail: `{path, message, context: {value}}`. -/
structure JoiDetail where
  path : List String
  message : String
  contextValue : Option String
deriving DecidableEq, Repr

/-- `ErrorAnalyzer.analyzeValidationError`. -/
def analyzeValidationError (message : String) (details : List JoiDetail)
    (now : String) : CustomError :=
  ValidationError.make
    (if message == "" then "参数验证失败" else message)
    (some (.fields (details.map fun d =>
      ⟨String.intercalate "." d.path, d.message, d.contextValue⟩)))
    now

/-- `ErrorAnalyzer.analyzeConfigError`. -/
def analyzeConfigError (msg : String) (now : String) : CustomError :=
  CustomError.make ("配置错误: " ++ msg) .CONFIGURATION_ERROR 500
    (some (.originalError (some msg))) now

/-- `ErrorAnalyzer.analyzeUnknownError`. -/
def analyzeUnknownError (msg : String) (now : String) : CustomError :=
  CustomError.make ("未知错误: " ++ msg) .UNKNOWN_ERROR 500
    (some (.unknownInfo msg)) now

end ErrorAnalyzer

/-- The kinds of value that can be thrown and reach `ErrorHandler.handle`:
a raw JS error (axios error or plain `Error`), a Joi validation error
(`error.isJoi`), or an already-classified `CustomError`. -/
inductive JsError where
  | raw (e : RawHttpError)
  | joi (message : String) (details : List ErrorAnalyzer.JoiDetail)
  | custom (c : CustomError)
deriving DecidableEq, Repr

namespace ErrorHandler

/-- `ErrorHandler.handle` from `src/utils/errorHandler.js`, preserving the
check order: `error.response` first, then `error.isJoi`, then
`error.code === 'MISSING_CONFIG'`, then `instanceof CustomError`,
then unknown. -/
def handle (e : JsError) (now : String) : CustomError :=
  match e with
  | .raw r =>
    if r.response.isSome then ErrorAnalyzer.analyzeHttpError r now
    else if r.code == some "MISSING_CONFIG" then
      ErrorAnalyzer.analyzeConfigError r.message now
    else ErrorAnalyzer.analyzeUnknownError r.message now
  | .joi msg details => ErrorAnalyzer.analyzeValidationError msg details now
  | .custom c =>
    if c.code == ErrorCode.MISSING_CONFIG then
      ErrorAnalyzer.analyzeConfigError c.message now
    else c

/-- The retryable code list of `ErrorHandler.isRetryable`. -/
def retryableCodes : List ErrorCode :=
  [.NETWORK_ERROR, .TIMEOUT_ERROR, .CONNECTION_ERROR,
   .INTERNAL_SERVER_ERROR, .SERVICE_UNAVAILABLE]

/-- `ErrorHandler.isRetryable`. -/
def isRetryable (c : CustomError) : Bool :=
  retryableCodes.contains c.code

end ErrorHandler

/-- `shouldNotRetry` from `src/services/httpClient.js`: any 4xx response
(401 checked first, then the general 4xx range) must not be retried;
errors without a response may be retried. -/
def shouldNotRetry (e : RawHttpError) : Bool :=
  match e.response with
  | some r =>
    if r.status == 401 then true
    else if 400 ≤ r.status && r.status < 500 then true
    else false
  | none => false

/-- The loop body of `executeWithRetry`. `attempt` is the 1-based loop
counter; `fuel` is the number of loop iterations still permitted
(`maxRetries + 2 - attempt` along real executions, so the `fuel = 0`
fallback — the JS `throw lastError` after the loop — is unreachable).
The second component of the result is the number of attempts performed. -/
def retryGo {α : Type} (f : Nat → Except RawHttpError α) (maxRetries : Nat) :
    Nat → Nat → Except RawHttpError α × Nat
  | attempt, 0 => (.error default, attempt - 1)
  | attempt, fuel + 1 =>
    match f attempt with
    | .ok a => (.ok a, attempt)
    | .error e =>
      if maxRetries < attempt then (.error e, attempt)
      else if shouldNotRetry e then (.error e, attempt)
      else retryGo f maxRetries (attempt + 1) fuel

/-- `executeWithRetry(requestFn, {maxRetries})` from
`src/services/httpClient.js`; `f n` is the outcome of the n-th invocation
of `requestFn`. Returns the final outcome paired with the number of
attempts made. The backoff delay between attempts does not influence
either component. -/
def executeWithRetry {α : Type} (f : Nat → Except RawHttpError α)
    (maxRetries : Nat) : Except RawHttpError α × Nat :=
  retryGo f maxRetries 1 (maxRetries + 1)

/-- `getExponentialBackoffDelay(attemptNumber, baseDelay)` from
`src/services/httpClient.js`, with the `Math.random()` draw made an
explicit rational parameter `rand`. -/
def getExponentialBackoffDelay (attemptNumber : Nat) (baseDelay rand : ℚ) : ℚ :=
  let exponentialDelay := baseDelay * 2 ^ (attemptNumber - 1)
  let jitter := rand * (1 / 10) * exponentialDelay
  min (exponentialDelay + jitter) 30000

/-- The `{code, message, details, timestamp}` object placed in the `error`
field by `ErrorHandler.createMcpErrorResponse`. -/
structure McpErrorBody where
  code : ErrorCode
  message : String
  details : Option Details
  timestamp : String
deriving DecidableEq, Repr

/-- The tool result envelope: `{success, data?}` or `{success, error?}`.
An absent JS field is `none`. -/
structure ToolResult (α : Type) where
  success : Bool
  data : Option α
  error : Option McpErrorBody
deriving DecidableEq, Repr

/-- `ErrorHandler.createSuccessResponse`. -/
def createSuccessResponse {α : Type} (d : α) : ToolResult α :=
  ⟨true, some d, none⟩

/-- `ErrorHandler.createMcpErrorResponse`. -/
def createMcpErrorResponse {α : Type} (c : CustomError) : ToolResult α :=
  ⟨false, none, some ⟨c.code, c.message, c.details, c.timestamp⟩⟩

/-- `ErrorHandler.asyncWrapper(fn)` applied to one call: `res` is the
outcome of `await fn(...args)` (resolution or the thrown value). -/
def asyncWrapper {α : Type} (res : Except JsError α) (now : String) :
    ToolResult α :=
  match res with
  | .ok r => createSuccessResponse r
  | .error e => createMcpErrorResponse (ErrorHandler.handle e now)

/-- JS `\s`-style whitespace used by `String.prototype.trim`. -/
def isWs (c : Char) : Bool := c.isWhitespace

/-- `l.trim()` on the character list: drop whitespace from both ends. -/
def trimChars (l : List Char) : List Char :=
  ((l.dropWhile isWs).reverse.dropWhile isWs).reverse

/-- Case-insensitive prefix test against an (already lowercase) ASCII
pattern, modelling the `i` flag of `/^https?:\/\//i`. -/
def startsWithCI (pat : List Char) (l : List Char) : Bool :=
  (l.take pat.length).map Char.toLower == pat

/-- The anchored regex `/^https?:\/\//i` of `normalizeUrl`. -/
def hasHttpScheme (l : List Char) : Bool :=
  startsWithCI "http://".data l || startsWithCI "https://".data l

/-- `normalizeUrl` from `src/utils/validation.js` on the character list.
The JS guard `if (!url || typeof url !== 'string') return url` keeps the
empty string (and non-strings, outside this model's domain) unchanged. -/
def normalizeUrlL (l : List Char) : List Char :=
  if l = [] then l
  else if hasHttpScheme (trimChars l) then trimChars l
  else "https://".data ++ trimChars l

/-- `normalizeUrl` on `String`. -/
def normalizeUrl (s : String) : String :=
  ⟨normalizeUrlL s.data⟩

/-- The `sensitiveKeys` list of `sanitizeHeaders` in
`src/services/httpClient.js`. -/
def sensitiveKeys : List String :=
  ["authorization", "api-key", "x-api-key", "token", "cookie"]

/-- `key.toLowerCase()` modelled character-wise. -/
def lowerStr (s : String) : String :=
  ⟨s.data.map Char.toLower⟩

/-- The loop body of `sanitizeHeaders`: one entry of the copied object,
redacted when its lowercased key is sensitive. -/
def redactEntry (kv : String × String) : String × String :=
  if sensitiveKeys.contains (lowerStr kv.1) then (kv.1, "***REDACTED***") else kv

/-- `sanitizeHeaders(headers)`: `null`/`undefined` map to `null`; otherwise
a fresh object (`{...headers}`) in which each key whose lowercased name is
sensitive is remapped to `'***REDACTED***'`. Headers are modelled as the
key-ordered association list of the JS object's own enumerable entries. -/
def sanitizeHeaders (headers : Option (List (String × String))) :
    Option (List (String × String)) :=
  match headers with
  | none => none
  | some hs => some (hs.map redactEntry)

/-- The `data` field of a remote envelope: absent (`undefined` in JS),
`null`, or a present payload. Payloads are opaque tokens here. -/
inductive DataVal where
  | missingv
  | nullv
  | val (d : String)
deriving DecidableEq, Repr

/-- The JS value returned as the HTTP response body, as
`ShortLinkService.handleApiResponse` inspects it: the JSON-ish primitives
plus the envelope object `{code?, message?, data?}` (absent fields are
`none` / `.missingv`). -/
inductive ApiResponse where
  | nullv
  | undefv
  | numv (n : Int)
  | strv (s : String)
  | boolv (b : Bool)
  | objv (code : Option Int) (message : Option String) (dataField : DataVal)
deriving DecidableEq, Repr

/-- Whether the value is a truthy JS object, i.e. survives the
`!response || typeof response !== 'object'` guard (recall
`typeof null === 'object'` but `!null` is true). -/
def ApiResponse.isObjv : ApiResponse → Bool
  | .objv _ _ _ => true
  | _ => false

namespace ShortLinkService

/-- `ShortLinkService.mapApiErrorCode`; `none` stands for a missing `code`
field (`errorCodeMap[undefined]` falls back to `UNKNOWN_ERROR`). -/
def mapApiErrorCode : Option Int → ErrorCode
  | some 400 => .VALIDATION_ERROR
  | some 401 => .AUTHENTICATION_ERROR
  | some 403 => .AUTHORIZATION_ERROR
  | some 404 => .RESOURCE_NOT_FOUND
  | some 409 => .RESOURCE_ALREADY_EXISTS
  | some 429 => .RATE_LIMIT_EXCEEDED
  | some 500 => .INTERNAL_SERVER_ERROR
  | _ => .UNKNOWN_ERROR

/-- `ShortLinkService.handleApiResponse(response, operation)`: a falsy or
non-object body is a format error (`BusinessError`); a non-zero (or
missing) `code` is a business failure mapped through `mapApiErrorCode`;
`code == 0` with `null`/absent `data` yields `null`; otherwise the
payload. -/
def handleApiResponse (r : ApiResponse) (operation : String) (now : String) :
    Except CustomError (Option String) :=
  match r with
  | .objv code msg dataField =>
    if code != some 0 then
      .error (BusinessError.make (msg.getD (operation ++ " 操作失败"))
        (mapApiErrorCode code) now)
    else
      match dataField with
      | .missingv => .ok none
      | .nullv => .ok none
      | .val d => .ok (some d)
  | _ =>
    .error (BusinessError.make (operation ++ ": 服务器响应格式错误")
      .OPERATION_NOT_ALLOWED now)

end ShortLinkService

/-- The raw arguments of `batch_create_short_urls` as the validator sees
them: each field may be absent. -/
structure BatchInput where
  urls : Option (List String)
  domain : Option String
deriving DecidableEq, Repr

/-- The validated batch parameters (Joi's returned `value`). -/
structure BatchValidated where
  urls : List String
  domain : String
deriving DecidableEq, Repr

/-- Split a character list at every occurrence of `sep` (the shape of
`s.split('.')`). -/
def splitOnChar (sep : Char) : List Char → List (List Char)
  | [] => [[]]
  | c :: t =>
    match splitOnChar sep t with
    | [] => [[c]]
    | h :: r => if c == sep then [] :: h :: r else (c :: h) :: r

/-- The domain pattern `/^[a-zA-Z0-9.-]+\.[a-zA-Z]{2,}$/` of
`commonRules.domain`: everything before the final dot is a nonempty run
over `[a-zA-Z0-9.-]`, and the final label is two or more letters. -/
def isValidDomainStr (s : String) : Bool :=
  let parts := splitOnChar '.' s.data
  match parts.getLast? with
  | none => false
  | some tld =>
    let front := parts.dropLast
    decide (2 ≤ parts.length)
    && (decide (2 ≤ front.length) || front.any (fun seg => decide (seg ≠ [])))
    && front.all (fun seg => seg.all (fun c => c.isAlphanum || c == '-'))
    && decide (2 ≤ tld.length)
    && tld.all Char.isAlpha

/-- The `batchCreateShortUrls` Joi schema (`commonRules.urls` required with
`min(1).max(50)` and URI items, plus a required `commonRules.domain`),
evaluated with `abortEarly: false` so every failing rule contributes one
entry. Joi's opaque `string.uri()` grammar is the parameter `isUri`. -/
def validateBatch (isUri : String → Bool) (p : BatchInput) : List FieldError :=
  (match p.urls with
   | none => [⟨"urls", "URLs 是必填参数", none⟩]
   | some l =>
     (if l.length < 1 then [⟨"urls", "至少需要提供一个 URL", none⟩] else [])
     ++ (if 50 < l.length then [⟨"urls", "最多只能提供 50 个 URL", none⟩] else [])
     ++ l.enum.filterMap (fun iu =>
          if isUri iu.2 then none
          else some ⟨"urls." ++ toString iu.1, "URL 格式不正确", some iu.2⟩))
  ++ (match p.domain with
      | none => [⟨"domain", "域名是必填参数", none⟩]
      | some d =>
        if isValidDomainStr d then []
        else [⟨"domain", "域名格式不正确", some d⟩])

/-- The message of the plain `Error` thrown by `validateOrThrow` in
`src/utils/validation.js`: the field messages joined with `'; '` behind
the fixed prefix. -/
def validationFailureMessage (errors : List FieldError) : String :=
  "参数验证失败: " ++
    String.intercalate "; " (errors.map fun fe => fe.field ++ ": " ++ fe.message)

/-- `validateOrThrow('batchCreateShortUrls', p)`: on failure it throws a
plain `new Error(...)` — a raw JS error with no response and no code —
not a `ValidationError`. -/
def validateOrThrowBatch (isUri : String → Bool) (p : BatchInput) :
    Except JsError BatchValidated :=
  match validateBatch isUri p with
  | [] => .ok ⟨p.urls.getD [], p.domain.getD ""⟩
  | errors => .error (.raw ⟨none, none, validationFailureMessage errors, none⟩)

/-- The request body `{...validatedParams, urls: normalizedUrls}` that
`batchCreateShortUrls` posts. -/
structure BatchRequestBody where
  urls : List String
  domain : String
deriving DecidableEq, Repr

namespace ShortLinkService

/-- `ShortLinkService.batchCreateShortUrls(params)`: validate, normalize
every URL, post through `executeWithRetry`, unwrap the envelope; any
thrown value is funnelled through `ErrorHandler.handle` by the `catch`.
`net body n` is the outcome of the n-th network attempt for the built
body; the second component of the result counts network attempts (0 when
validation short-circuits). -/
def batchCreateShortUrls (isUri : String → Bool) (p : BatchInput)
    (net : BatchRequestBody → Nat → Except RawHttpError ApiResponse)
    (maxRetries : Nat) (now : String) :
    Except CustomError (Option String) × Nat :=
  match validateOrThrowBatch isUri p with
  | .error e => (.error (ErrorHandler.handle e now), 0)
  | .ok v =>
    let body : BatchRequestBody := ⟨v.urls.map normalizeUrl, v.domain⟩
    match executeWithRetry (net body) maxRetries with
    | (.ok resp, n) =>
      match handleApiResponse resp "批量创建短链接" now with
      | .ok d => (.ok d, n)
      | .error c => (.error (ErrorHandler.handle (.custom c) now), n)
    | (.error rawE, n) => (.error (ErrorHandler.handle (.raw rawE) now), n)

end ShortLinkService

/-- Observation helper: the `code` of a failed outcome, `none` on success. -/
def errCodeOf {β : Type} (x : Except CustomError β) : Option ErrorCode :=
  match x with
  | .error c => some c.code
  | .ok _ => none

/-- Observation helper: the `name` of a failed outcome, `none` on success. -/
def errNameOf {β : Type} (x : Except CustomError β) : Option String :=
  match x with
  | .error c => some c.name
  | .ok _ => none

/-! ### Helper lemmas about trimming -/

theorem trimChars_eq_rdrop (l : List Char) :
    trimChars l = List.rdropWhile isWs (List.dropWhile isWs l) := rfl

theorem rdropWhile_cons_eq {α : Type} (p : α → Bool) (c : α) (t : List α) :
    List.rdropWhile p (c :: t) =
      if (List.rdropWhile p t).isEmpty then (if p c then [] else [c])
      else c :: List.rdropWhile p t := by
  unfold List.rdropWhile
  rw [List.reverse_cons, List.dropWhile_append]
  cases h : List.dropWhile p t.reverse with
  | nil =>
    by_cases hc : p c
    · simp [List.dropWhile, hc]
    · simp [List.dropWhile, hc]
  | cons a as =>
    simp [List.reverse_append, List.isEmpty_iff]

theorem dropWhile_rdropWhile_comm {α : Type} (p : α → Bool) :
    ∀ l : List α,
      List.dropWhile p (List.rdropWhile p l) =
        List.rdropWhile p (List.dropWhile p l)
  | [] => by simp
  | c :: t => by
    rw [rdropWhile_cons_eq, List.dropWhile_cons]
    by_cases hc : p c
    · rw [if_pos hc, if_pos hc]
      by_cases ht : (List.rdropWhile p t).isEmpty = true
      · have htnil : List.rdropWhile p t = [] := List.isEmpty_iff.mp ht
        have hall : ∀ x ∈ t, p x := List.rdropWhile_eq_nil_iff.mp htnil
        have hdw : List.dropWhile p t = [] := List.dropWhile_eq_nil_iff.mpr hall
        rw [if_pos ht, hdw]
        simp
      · rw [if_neg ht, List.dropWhile_cons, if_pos hc,
          dropWhile_rdropWhile_comm p t]
    · rw [if_neg hc, if_neg hc, rdropWhile_cons_eq]
      by_cases ht : (List.rdropWhile p t).isEmpty = true
      · rw [if_pos ht, if_pos ht, if_neg hc]
        simp [List.dropWhile, hc]
      · rw [if_neg ht, if_neg ht, List.dropWhile_cons, if_neg hc]

theorem trimChars_idem (l : List Char) : trimChars (trimChars l) = trimChars l := by
  rw [trimChars_eq_rdrop, trimChars_eq_rdrop, dropWhile_rdropWhile_comm,
    List.dropWhile_idempotent, List.rdropWhile_idempotent]

theorem rdropWhile_append_right {α : Type} (p : α → Bool) (y x : List α)
    (h : List.rdropWhile p x ≠ []) :
    List.rdropWhile p (y ++ x) = y ++ List.rdropWhile p x := by
  unfold List.rdropWhile at *
  rw [List.reverse_append, List.dropWhile_append]
  have hne : (List.dropWhile p x.reverse).isEmpty = false := by
    rw [List.isEmpty_eq_false]
    intro hnil
    exact h (by simp [hnil])
  simp [hne]

theorem dropWhile_https_append (t : List Char) :
    List.dropWhile isWs ("https://".data ++ t) = "https://".data ++ t := by
  rw [List.dropWhile_append]
  have h : List.dropWhile isWs "https://".data = "https://".data := by decide
  rw [h]
  simp [List.isEmpty_iff]

theorem trimChars_https_append (t : List Char) (ht : List.rdropWhile isWs t = t)
    (hne : t ≠ []) :
    trimChars ("https://".data ++ t) = "https://".data ++ t := by
  rw [trimChars_eq_rdrop, dropWhile_https_append,
    rdropWhile_append_right isWs _ t (by rw [ht]; exact hne), ht]

theorem hasHttpScheme_https_append (t : List Char) :
    hasHttpScheme ("https://".data ++ t) = true := by
  unfold hasHttpScheme startsWithCI
  apply Bool.or_eq_true_iff.mpr
  right
  rw [List.take_left]
  decide

/-! ### Idempotence of URL normalization (claim C8) -/

theorem trimChars_trim_fixed (l : List Char) :
    List.rdropWhile isWs (trimChars l) = trimChars l := by
  rw [trimChars_eq_rdrop, List.rdropWhile_idempotent]

theorem normalizeUrlL_ne_nil_eq (l : List Char) (h0 : l ≠ []) :
    normalizeUrlL l =
      if hasHttpScheme (trimChars l) then trimChars l
      else "https://".data ++ trimChars l := by
  unfold normalizeUrlL
  rw [if_neg h0]

theorem normalizeUrlL_idem (l : List Char) :
    normalizeUrlL (normalizeUrlL l) = normalizeUrlL l := by
  by_cases h0 : l = []
  · rw [h0]
    decide
  · rw [normalizeUrlL_ne_nil_eq l h0]
    by_cases hs : hasHttpScheme (trimChars l) = true
    · rw [if_pos hs]
      have htne : trimChars l ≠ [] := by
        intro hnil
        rw [hnil] at hs
        exact absurd hs (by decide)
      rw [normalizeUrlL_ne_nil_eq _ htne, trimChars_idem, if_pos hs]
    · rw [if_neg hs]
      by_cases htnil : trimChars l = []
      · rw [htnil, List.append_nil]
        decide
      · have hne : "https://".data ++ trimChars l ≠ [] := by simp
        rw [normalizeUrlL_ne_nil_eq _ hne,
          trimChars_https_append _ (trimChars_trim_fixed l) htnil,
          if_pos (hasHttpScheme_https_append _)]

/-- C8: URL normalization is idempotent — `normalizeUrl (normalizeUrl u) =
normalizeUrl u` for every string `u` — a scheme-less URL gets `https://`
prepended after trimming (`"example.com" ↦ "https://example.com"`), and an
existing `http`/`https` scheme is preserved (`"http://x.com"` unchanged). -/
theorem normalizeUrl_idempotent_and_scheme :
    (∀ u : String, normalizeUrl (normalizeUrl u) = normalizeUrl u)
    ∧ normalizeUrl "example.com" = "https://example.com"
    ∧ normalizeUrl "http://x.com" = "http://x.com" := by
  refine ⟨fun u => ?_, by decide, by decide⟩
  have h : normalizeUrl (normalizeUrl u)
      = ⟨normalizeUrlL (normalizeUrlL u.data)⟩ := rfl
  rw [h, normalizeUrlL_idem]
  rfl

/-! ### The retry loop -/

theorem retryGo_all_fail {α : Type} (m : Nat) (errOf : Nat → RawHttpError)
    (hretry : ∀ n, shouldNotRetry (errOf n) = false) :
    ∀ (fuel a : Nat), 1 ≤ fuel → a + fuel = m + 2 →
      retryGo (fun n => (Except.error (errOf n) : Except RawHttpError α)) m a fuel
        = (.error (errOf (m + 1)), m + 1)
  | 0, a, h1, _ => absurd h1 (by omega)
  | fuel + 1, a, _, hsum => by
    simp only [retryGo]
    by_cases hlt : m < a
    · have ha : a = m + 1 := by omega
      rw [if_pos hlt, ha]
    · rw [if_neg hlt, hretry a]
      simp only [Bool.false_eq_true, if_false]
      exact retryGo_all_fail m errOf hretry fuel (a + 1) (by omega) (by omega)

/-- C3: for every `maxRetries` and every request function failing on every
attempt with a retryable (`shouldNotRetry = false`) error,
`executeWithRetry` performs exactly `maxRetries + 1` attempts and throws
the error of the final attempt. -/
theorem executeWithRetry_exhausts_retries (α : Type) (maxRetries : Nat)
    (errOf : Nat → RawHttpError)
    (h : ∀ n, shouldNotRetry (errOf n) = false) :
    executeWithRetry
        (fun n => (Except.error (errOf n) : Except RawHttpError α)) maxRetries
      = (.error (errOf (maxRetries + 1)), maxRetries + 1) :=
  retryGo_all_fail maxRetries errOf h (maxRetries + 1) 1 (by omega) (by omega)

/-- Witness for C3: a permanently failing transport error with
`maxRetries = 3` is attempted exactly 4 times. -/
theorem executeWithRetry_exhausts_retries_witness :
    shouldNotRetry (⟨none, none, "read ECONNRESET", none⟩ : RawHttpError) = false
    ∧ executeWithRetry
        (fun _ => (Except.error
          (⟨none, none, "read ECONNRESET", none⟩ : RawHttpError) :
          Except RawHttpError Nat)) 3
      = (.error ⟨none, none, "read ECONNRESET", none⟩, 4) :=
  ⟨rfl, executeWithRetry_exhausts_retries Nat 3
    (fun _ => ⟨none, none, "read ECONNRESET", none⟩) (fun _ => rfl)⟩

/-- Counterexample for C1: a first-attempt 429 with a success available on
the second attempt and `maxRetries = 1` does NOT resolve after 2 attempts —
`shouldNotRetry` is true for 429 (it falls in the 4xx range), the
classified 429 error is not retryable, and the executor throws after
exactly 1 attempt. -/
theorem rateLimit_retry_scenario_refuted :
    shouldNotRetry
      (⟨some ⟨429, none, none⟩, none,
        "Request failed with status code 429", none⟩ : RawHttpError) = true
    ∧ ErrorHandler.isRetryable
        (ErrorAnalyzer.analyzeHttpError
          ⟨some ⟨429, none, none⟩, none,
            "Request failed with status code 429", none⟩ "t0") = false
    ∧ executeWithRetry
        (fun n => if n == 1
          then (Except.error
            (⟨some ⟨429, none, none⟩, none,
              "Request failed with status code 429", none⟩ : RawHttpError))
          else (Except.ok 200 : Except RawHttpError Nat)) 1
      = (.error ⟨some ⟨429, none, none⟩, none,
          "Request failed with status code 429", none⟩, 1)
    ∧ (executeWithRetry
        (fun n => if n == 1
          then (Except.error
            (⟨some ⟨429, none, none⟩, none,
              "Request failed with status code 429", none⟩ : RawHttpError))
          else (Except.ok 200 : Except RawHttpError Nat)) 1).2 ≠ 2 :=
  ⟨rfl, rfl, rfl, by decide⟩

/-- C1 as amended: a request whose first attempt fails with an HTTP 429
response is never re-issued — regardless of `maxRetries` the executor makes
exactly 1 attempt and throws; the classified error is a `BusinessError`
with code `RATE_LIMIT_EXCEEDED` and is not retryable. -/
theorem status429_not_retried (α : Type) (maxRetries : Nat)
    (f : Nat → Except RawHttpError α) (e : RawHttpError) (r : HttpResponse)
    (now : String) (hf : f 1 = .error e) (hresp : e.response = some r)
    (hstatus : r.status = 429) :
    executeWithRetry f maxRetries = (.error e, 1)
    ∧ (ErrorHandler.handle (.raw e) now).name = "BusinessError"
    ∧ (ErrorHandler.handle (.raw e) now).code = ErrorCode.RATE_LIMIT_EXCEEDED
    ∧ ErrorHandler.isRetryable (ErrorHandler.handle (.raw e) now) = false
    ∧ shouldNotRetry e = true := by
  have hsnr : shouldNotRetry e = true := by
    simp [shouldNotRetry, hresp, hstatus]
  have hexec : executeWithRetry f maxRetries = (.error e, 1) := by
    unfold executeWithRetry
    simp only [retryGo, hf, hsnr, if_true, ite_self]
  have hhandle : ErrorHandler.handle (.raw e) now
      = BusinessError.make (r.dataMessage.getD "请求频率过高")
          .RATE_LIMIT_EXCEEDED now := by
    simp [ErrorHandler.handle, hresp, ErrorAnalyzer.analyzeHttpError, hstatus]
  refine ⟨hexec, ?_, ?_, ?_, hsnr⟩ <;> rw [hhandle] <;> rfl

/-- Witness for the amended C1 at a concrete 429 failure. -/
theorem status429_not_retried_witness :
    (fun _ : Nat => (Except.error
        (⟨some ⟨429, none, none⟩, none, "429", none⟩ : RawHttpError) :
        Except RawHttpError Nat)) 1
      = .error ⟨some ⟨429, none, none⟩, none, "429", none⟩
    ∧ (executeWithRetry
        (fun _ : Nat => (Except.error
          (⟨some ⟨429, none, none⟩, none, "429", none⟩ : RawHttpError) :
          Except RawHttpError Nat)) 2 = (.error ⟨some ⟨429, none, none⟩, none, "429", none⟩, 1)
      ∧ (ErrorHandler.handle
          (.raw ⟨some ⟨429, none, none⟩, none, "429", none⟩) "t0").name = "BusinessError"
      ∧ (ErrorHandler.handle
          (.raw ⟨some ⟨429, none, none⟩, none, "429", none⟩) "t0").code
            = ErrorCode.RATE_LIMIT_EXCEEDED
      ∧ ErrorHandler.isRetryable (ErrorHandler.handle
          (.raw ⟨some ⟨429, none, none⟩, none, "429", none⟩) "t0") = false
      ∧ shouldNotRetry (⟨some ⟨429, none, none⟩, none, "429", none⟩ : RawHttpError) = true) :=
  ⟨rfl, status429_not_retried Nat 2 _ _ ⟨429, none, none⟩ "t0" rfl rfl rfl⟩

/-- C6: a first-attempt HTTP 401 failure is never retried — exactly 1
attempt regardless of `maxRetries` — and classifies as an
`AuthenticationError` (code `AUTHENTICATION_ERROR`). -/
theorem status401_single_attempt_authError (α : Type) (maxRetries : Nat)
    (f : Nat → Except RawHttpError α) (e : RawHttpError) (r : HttpResponse)
    (now : String) (hf : f 1 = .error e) (hresp : e.response = some r)
    (hstatus : r.status = 401) :
    executeWithRetry f maxRetries = (.error e, 1)
    ∧ (ErrorHandler.handle (.raw e) now).name = "AuthenticationError"
    ∧ (ErrorHandler.handle (.raw e) now).code = ErrorCode.AUTHENTICATION_ERROR := by
  have hsnr : shouldNotRetry e = true := by
    simp [shouldNotRetry, hresp, hstatus]
  have hexec : executeWithRetry f maxRetries = (.error e, 1) := by
    unfold executeWithRetry
    simp only [retryGo, hf, hsnr, if_true, ite_self]
  have hhandle : ErrorHandler.handle (.raw e) now
      = AuthenticationError.make (r.dataMessage.getD "未授权访问") now := by
    simp [ErrorHandler.handle, hresp, ErrorAnalyzer.analyzeHttpError, hstatus]
  refine ⟨hexec, ?_, ?_⟩ <;> rw [hhandle] <;> rfl

/-- Witness for C6 at a concrete 401 failure with `maxRetries = 3`. -/
theorem status401_single_attempt_authError_witness :
    (fun _ : Nat => (Except.error
        (⟨some ⟨401, none, none⟩, none, "401", none⟩ : RawHttpError) :
        Except RawHttpError Nat)) 1
      = .error ⟨some ⟨401, none, none⟩, none, "401", none⟩
    ∧ (executeWithRetry
        (fun _ : Nat => (Except.error
          (⟨some ⟨401, none, none⟩, none, "401", none⟩ : RawHttpError) :
          Except RawHttpError Nat)) 3 = (.error ⟨some ⟨401, none, none⟩, none, "401", none⟩, 1)
      ∧ (ErrorHandler.handle
          (.raw ⟨some ⟨401, none, none⟩, none, "401", none⟩) "t0").name = "AuthenticationError"
      ∧ (ErrorHandler.handle
          (.raw ⟨some ⟨401, none, none⟩, none, "401", none⟩) "t0").code
            = ErrorCode.AUTHENTICATION_ERROR) :=
  ⟨rfl, status401_single_attempt_authError Nat 3 _ _ ⟨401, none, none⟩ "t0" rfl rfl rfl⟩

/-- Counterexample for C4: a timeout transport failure is classified as a
`NetworkError` with code `NETWORK_ERROR` — not a `TimeoutError` — and a
connection-refused failure likewise is not a `ConnectionError`. -/
theorem transport_failure_kinds_refuted :
    (ErrorAnalyzer.analyzeHttpError
      ⟨none, some "ECONNABORTED", "timeout of 5000ms exceeded", none⟩ "t0").name
        = "NetworkError"
    ∧ (ErrorAnalyzer.analyzeHttpError
        ⟨none, some "ECONNABORTED", "timeout of 5000ms exceeded", none⟩ "t0").name
          ≠ "TimeoutError"
    ∧ (ErrorAnalyzer.analyzeHttpError
        ⟨none, some "ECONNABORTED", "timeout of 5000ms exceeded", none⟩ "t0").code
          ≠ ErrorCode.TIMEOUT_ERROR
    ∧ (ErrorAnalyzer.analyzeHttpError
        ⟨none, some "ECONNREFUSED", "connect ECONNREFUSED 127.0.0.1:443", none⟩ "t0").name
          ≠ "ConnectionError"
    ∧ (ErrorAnalyzer.analyzeHttpError
        ⟨none, some "ECONNREFUSED", "connect ECONNREFUSED 127.0.0.1:443", none⟩ "t0").code
          ≠ ErrorCode.CONNECTION_ERROR
    ∧ (ErrorAnalyzer.analyzeHttpError
        ⟨none, some "ECONNREFUSED", "connect ECONNREFUSED 127.0.0.1:443", none⟩ "t0").code
          = ErrorCode.NETWORK_ERROR := by
  refine ⟨rfl, ?_, ?_, ?_, ?_, rfl⟩ <;> decide

/-- C4 as amended: every transport-level failure without a response is
classified as a `NetworkError` (name `"NetworkError"`, code
`NETWORK_ERROR`), which is retryable; the three sub-cases differ only in
the message (timeout, connection-refused/unresolvable, other). -/
theorem no_response_classified_networkError (e : RawHttpError) (now : String)
    (h : e.response = none) :
    (ErrorAnalyzer.analyzeHttpError e now).name = "NetworkError"
    ∧ (ErrorAnalyzer.analyzeHttpError e now).code = ErrorCode.NETWORK_ERROR
    ∧ ErrorHandler.isRetryable (ErrorAnalyzer.analyzeHttpError e now) = true
    ∧ (ErrorAnalyzer.analyzeHttpError e now).message =
        (if e.code == some "ECONNABORTED" || strContains e.message "timeout"
         then "请求超时"
         else if e.code == some "ENOTFOUND" || e.code == some "ECONNREFUSED"
         then "无法连接到服务器"
         else "网络连接失败") := by
  simp only [ErrorAnalyzer.analyzeHttpError, h]
  split_ifs <;> exact ⟨rfl, rfl, rfl, rfl⟩

/-- Witness for the amended C4 at a concrete timeout failure. -/
theorem no_response_classified_networkError_witness :
    (⟨none, some "ECONNABORTED", "timeout of 1ms exceeded", none⟩
        : RawHttpError).response = none
    ∧ ((ErrorAnalyzer.analyzeHttpError
        ⟨none, some "ECONNABORTED", "timeout of 1ms exceeded", none⟩ "t0").name
          = "NetworkError"
      ∧ (ErrorAnalyzer.analyzeHttpError
          ⟨none, some "ECONNABORTED", "timeout of 1ms exceeded", none⟩ "t0").code
            = ErrorCode.NETWORK_ERROR
      ∧ ErrorHandler.isRetryable (ErrorAnalyzer.analyzeHttpError
          ⟨none, some "ECONNABORTED", "timeout of 1ms exceeded", none⟩ "t0") = true
      ∧ (ErrorAnalyzer.analyzeHttpError
          ⟨none, some "ECONNABORTED", "timeout of 1ms exceeded", none⟩ "t0").message =
          (if (some "ECONNABORTED" : Option String) == some "ECONNABORTED"
              || strContains "timeout of 1ms exceeded" "timeout"
           then "请求超时"
           else if (some "ECONNABORTED" : Option String) == some "ENOTFOUND"
              || (some "ECONNABORTED" : Option String) == some "ECONNREFUSED"
           then "无法连接到服务器"
           else "网络连接失败")) :=
  ⟨rfl, no_response_classified_networkError
    ⟨none, some "ECONNABORTED", "timeout of 1ms exceeded", none⟩ "t0" rfl⟩

/-- C2: `asyncWrapper` never throws — a resolving operation yields
`{success: true, data}` with no `error` field, a throwing operation yields
`{success: false, error: {code, message, details, timestamp}}` with no
`data` field, and exactly one of `data`/`error` is populated. -/
theorem asyncWrapper_envelope (α : Type) (res : Except JsError α) (now : String) :
    asyncWrapper res now =
      (match res with
       | .ok d => (⟨true, some d, none⟩ : ToolResult α)
       | .error e =>
         ⟨false, none, some ⟨(ErrorHandler.handle e now).code,
           (ErrorHandler.handle e now).message,
           (ErrorHandler.handle e now).details,
           (ErrorHandler.handle e now).timestamp⟩⟩)
    ∧ (((asyncWrapper res now).success = true
        ∧ ((asyncWrapper res now).data).isSome = true
        ∧ (asyncWrapper res now).error = none)
      ∨ ((asyncWrapper res now).success = false
        ∧ (asyncWrapper res now).data = none
        ∧ ((asyncWrapper res now).error).isSome = true)) := by
  cases res with
  | ok d => exact ⟨rfl, Or.inl ⟨rfl, rfl, rfl⟩⟩
  | error e => exact ⟨rfl, Or.inr ⟨rfl, rfl, rfl⟩⟩

/-- C7: the backoff delay equals
`min (baseDelay * 2^(attempt-1) * (1 + rand/10)) 30000`, never exceeds the
30000 ms ceiling, and for `baseDelay = 1000` and attempts 1..5 lies in
`[1000 * 2^(a-1), 1000 * 2^(a-1) * 1.1]`. -/
theorem getExponentialBackoffDelay_spec (a : Nat) (b r : ℚ)
    (ha : 1 ≤ a) (hb : 0 < b) (hr0 : 0 ≤ r) (hr1 : r < 1) :
    getExponentialBackoffDelay a b r = min (b * 2 ^ (a - 1) * (1 + r / 10)) 30000
    ∧ getExponentialBackoffDelay a b r ≤ 30000
    ∧ (a ≤ 5 → b = 1000 →
        1000 * 2 ^ (a - 1) ≤ getExponentialBackoffDelay a b r
        ∧ getExponentialBackoffDelay a b r ≤ 1000 * 2 ^ (a - 1) * (11 / 10)) := by
  have heq : getExponentialBackoffDelay a b r
      = min (b * 2 ^ (a - 1) * (1 + r / 10)) 30000 := by
    simp only [getExponentialBackoffDelay]
    congr 1
    ring
  refine ⟨heq, ?_, ?_⟩
  · rw [heq]
    exact min_le_right _ _
  · intro ha5 hb1000
    subst hb1000
    have hpow_pos : (0:ℚ) < 2 ^ (a - 1) := by positivity
    have hpow_le : (2:ℚ) ^ (a - 1) ≤ 16 := by
      calc (2:ℚ) ^ (a - 1) ≤ 2 ^ 4 := by
            apply pow_le_pow_right₀ (by norm_num)
            omega
        _ = 16 := by norm_num
    have hx_ge : (1000:ℚ) * 2 ^ (a - 1)
        ≤ 1000 * 2 ^ (a - 1) * (1 + r / 10) := by nlinarith
    have hx_le : (1000:ℚ) * 2 ^ (a - 1) * (1 + r / 10)
        ≤ 1000 * 2 ^ (a - 1) * (11 / 10) := by nlinarith
    constructor
    · rw [heq]
      exact le_min hx_ge (by nlinarith)
    · rw [heq]
      exact le_trans (min_le_left _ _) hx_le

/-- Witness for C7 at attempt 3, base delay 1000, random draw 1/2. -/
theorem getExponentialBackoffDelay_spec_witness :
    getExponentialBackoffDelay 3 1000 (1/2)
      = min ((1000:ℚ) * 2 ^ (3 - 1) * (1 + (1/2) / 10)) 30000
    ∧ (1000:ℚ) * 2 ^ (3 - 1) ≤ getExponentialBackoffDelay 3 1000 (1/2)
    ∧ getExponentialBackoffDelay 3 1000 (1/2)
        ≤ 1000 * 2 ^ (3 - 1) * (11 / 10) := by
  obtain ⟨h1, _, h3⟩ := getExponentialBackoffDelay_spec 3 1000 (1/2)
    (by norm_num) (by norm_num) (by norm_num) (by norm_num)
  exact ⟨h1, (h3 (by norm_num) rfl).1, (h3 (by norm_num) rfl).2⟩

/-- Counterexample for C5: batch-create with 51 URLs is rejected before any
network call (0 attempts), but the surfaced classified error is a generic
`CustomError` with code `UNKNOWN_ERROR` — not a `ValidationError` — because
`validateOrThrow` throws a plain `Error` whose per-field entries are
flattened into the message string. -/
theorem batch51_validationError_refuted :
    (ShortLinkService.batchCreateShortUrls (fun _ => true)
        ⟨some (List.replicate 51 "https://a.com"), some "dwz.test"⟩
        (fun _ _ => Except.ok ApiResponse.nullv) 3 "t0").2 = 0
    ∧ errCodeOf (ShortLinkService.batchCreateShortUrls (fun _ => true)
        ⟨some (List.replicate 51 "https://a.com"), some "dwz.test"⟩
        (fun _ _ => Except.ok ApiResponse.nullv) 3 "t0").1 = some ErrorCode.UNKNOWN_ERROR
    ∧ errNameOf (ShortLinkService.batchCreateShortUrls (fun _ => true)
        ⟨some (List.replicate 51 "https://a.com"), some "dwz.test"⟩
        (fun _ _ => Except.ok ApiResponse.nullv) 3 "t0").1 = some "CustomError"
    ∧ errCodeOf (ShortLinkService.batchCreateShortUrls (fun _ => true)
        ⟨some (List.replicate 51 "https://a.com"), some "dwz.test"⟩
        (fun _ _ => Except.ok ApiResponse.nullv) 3 "t0").1 ≠ some ErrorCode.VALIDATION_ERROR
    ∧ errNameOf (ShortLinkService.batchCreateShortUrls (fun _ => true)
        ⟨some (List.replicate 51 "https://a.com"), some "dwz.test"⟩
        (fun _ _ => Except.ok ApiResponse.nullv) 3 "t0").1 ≠ some "ValidationError" :=
  ⟨rfl, rfl, rfl, by decide, by decide⟩

/-- C5 as amended: every batch-create input failing local validation
short-circuits before any network attempt (0 network calls), and the error
surfaced through `ErrorHandler.handle` is the generic unknown-error
`CustomError` (code `UNKNOWN_ERROR`) carrying the joined field messages,
not a `ValidationError`. -/
theorem batch_invalid_input_shortCircuits (isUri : String → Bool)
    (p : BatchInput)
    (net : BatchRequestBody → Nat → Except RawHttpError ApiResponse)
    (maxRetries : Nat) (now : String) (h : validateBatch isUri p ≠ []) :
    ShortLinkService.batchCreateShortUrls isUri p net maxRetries now
      = (.error (ErrorAnalyzer.analyzeUnknownError
          (validationFailureMessage (validateBatch isUri p)) now), 0)
    ∧ (ErrorAnalyzer.analyzeUnknownError
        (validationFailureMessage (validateBatch isUri p)) now).code
          = ErrorCode.UNKNOWN_ERROR
    ∧ (ErrorAnalyzer.analyzeUnknownError
        (validationFailureMessage (validateBatch isUri p)) now).name
          = "CustomError" := by
  refine ⟨?_, rfl, rfl⟩
  have hvt : validateOrThrowBatch isUri p
      = .error (.raw ⟨none, none,
          validationFailureMessage (validateBatch isUri p), none⟩) := by
    unfold validateOrThrowBatch
    cases hv : validateBatch isUri p with
    | nil => exact absurd hv h
    | cons a as => rfl
  unfold ShortLinkService.batchCreateShortUrls
  rw [hvt]
  rfl

/-- Witness for the amended C5: a batch of 51 URLs fails validation, is
never sent, and surfaces as `UNKNOWN_ERROR`. -/
theorem batch_invalid_input_shortCircuits_witness :
    validateBatch (fun _ => true)
        ⟨some (List.replicate 51 "https://a.com"), some "dwz.test"⟩ ≠ []
    ∧ (ShortLinkService.batchCreateShortUrls (fun _ => true)
        ⟨some (List.replicate 51 "https://a.com"), some "dwz.test"⟩
        (fun _ _ => Except.ok ApiResponse.nullv) 3 "t0"
      = (.error (ErrorAnalyzer.analyzeUnknownError
          (validationFailureMessage (validateBatch (fun _ => true)
            ⟨some (List.replicate 51 "https://a.com"), some "dwz.test"⟩)) "t0"), 0)
      ∧ (ErrorAnalyzer.analyzeUnknownError
          (validationFailureMessage (validateBatch (fun _ => true)
            ⟨some (List.replicate 51 "https://a.com"), some "dwz.test"⟩)) "t0").code
            = ErrorCode.UNKNOWN_ERROR
      ∧ (ErrorAnalyzer.analyzeUnknownError
          (validationFailureMessage (validateBatch (fun _ => true)
            ⟨some (List.replicate 51 "https://a.com"), some "dwz.test"⟩)) "t0").name
            = "CustomError") :=
  ⟨by decide, batch_invalid_input_shortCircuits (fun _ => true)
    ⟨some (List.replicate 51 "https://a.com"), some "dwz.test"⟩
    (fun _ _ => Except.ok ApiResponse.nullv) 3 "t0" (by decide)⟩

/-- C9: `handleApiResponse` raises a `BusinessError` whenever the response
body is `null`, `undefined`, or not an object, and returns `null` (rather
than raising) when the envelope has `code == 0` with a `null` or absent
`data` field. -/
theorem handleApiResponse_envelope_rules :
    (∀ (r : ApiResponse) (op now : String), r.isObjv = false →
        ShortLinkService.handleApiResponse r op now
          = .error (BusinessError.make (op ++ ": 服务器响应格式错误")
              .OPERATION_NOT_ALLOWED now)
        ∧ (BusinessError.make (op ++ ": 服务器响应格式错误")
            .OPERATION_NOT_ALLOWED now).name = "BusinessError")
    ∧ (∀ (op now : String) (m : Option String),
        ShortLinkService.handleApiResponse (.objv (some 0) m .missingv) op now
          = .ok none
        ∧ ShortLinkService.handleApiResponse (.objv (some 0) m .nullv) op now
          = .ok none) := by
  constructor
  · intro r op now hr
    cases r with
    | nullv => exact ⟨rfl, rfl⟩
    | undefv => exact ⟨rfl, rfl⟩
    | numv n => exact ⟨rfl, rfl⟩
    | strv s => exact ⟨rfl, rfl⟩
    | boolv b => exact ⟨rfl, rfl⟩
    | objv c m d => exact absurd hr (by simp [ApiResponse.isObjv])
  · intro op now m
    exact ⟨rfl, rfl⟩

/-- Witness for C9: a plain string body is a malformed envelope, and a
`code = 0` envelope with `null` data yields `null`. -/
theorem handleApiResponse_envelope_rules_witness :
    (ApiResponse.strv "oops").isObjv = false
    ∧ (ShortLinkService.handleApiResponse (.strv "oops") "创建短链接" "t0"
        = .error (BusinessError.make ("创建短链接" ++ ": 服务器响应格式错误")
            .OPERATION_NOT_ALLOWED "t0")
      ∧ (BusinessError.make ("创建短链接" ++ ": 服务器响应格式错误")
          .OPERATION_NOT_ALLOWED "t0").name = "BusinessError")
    ∧ (ShortLinkService.handleApiResponse (.objv (some 0) none .missingv)
          "删除短链接" "t0" = .ok none
      ∧ ShortLinkService.handleApiResponse (.objv (some 0) none .nullv)
          "删除短链接" "t0" = .ok none) :=
  ⟨rfl, handleApiResponse_envelope_rules.1 (.strv "oops") "创建短链接" "t0" rfl,
    handleApiResponse_envelope_rules.2 "删除短链接" "t0" none⟩

/-- C10: `sanitizeHeaders` maps `null`/`undefined` to `null`; for any
headers object it returns a fresh object with exactly the same keys in the
same order, where every key whose lowercased name is sensitive
(`authorization`, `api-key`, `x-api-key`, `token`, `cookie`) maps to
`'***REDACTED***'` and every other entry is unchanged. (The input is never
mutated: the embedding is pure and the result is built from a copy.) -/
theorem sanitizeHeaders_spec :
    sanitizeHeaders none = none
    ∧ (∀ hs : List (String × String), (sanitizeHeaders (some hs)).isSome = true)
    ∧ (∀ hs : List (String × String),
        ((sanitizeHeaders (some hs)).getD []).map Prod.fst = hs.map Prod.fst)
    ∧ (∀ (hs : List (String × String)) (i : Nat),
        ((sanitizeHeaders (some hs)).getD []).getD i ("", "")
          = (if sensitiveKeys.contains (lowerStr (hs.getD i ("", "")).1)
             then ((hs.getD i ("", "")).1, "***REDACTED***")
             else hs.getD i ("", ""))) := by
  have hfst : ∀ kv : String × String, (redactEntry kv).1 = kv.1 := by
    intro kv
    unfold redactEntry
    split_ifs <;> rfl
  refine ⟨rfl, fun _ => rfl, ?_, ?_⟩
  · intro hs
    induction hs with
    | nil => rfl
    | cons kv t ih =>
      show (redactEntry kv :: t.map redactEntry).map Prod.fst
        = kv.1 :: t.map Prod.fst
      rw [List.map_cons, hfst kv]
      exact congrArg _ ih
  · intro hs
    induction hs with
    | nil => intro i; rfl
    | cons kv t ih =>
      intro i
      cases i with
      | zero => rfl
      | succ j => exact ih j
